import Mathlib

/-!
# USB mass-storage example: logical-unit enumeration and service loop

A shallow embedding of `examples/usb_mass_storage/main.c`.

* The file-scope variables of `main.c` (`medias`, `luns`, `current_lun_num`,
  `msd_write_total`, `msd_refresh`) are the fields of `State`.
* Machine integers are `Nat` with explicit wrap-around: `uint8_t` arithmetic is
  taken modulo `2^8`, `uint32_t` arithmetic modulo `2^32`.
* Functions of other translation units (`lun_init`, `media_ramdisk_init`,
  `media_sdusb_initialize`, `SD_GetStatus`, `SD_Init`, `usbd_get_state`,
  `msd_driver_state_machine`, `msd_driver_initialize`) are recorded, in call order,
  in the ghost field `State.trace`; what they return is supplied by `Platform`.
* A store through an array index that is outside the declared array is undefined
  behaviour in C; the embedding returns `none` there.
* Console output (`trace_info`, `trace_error`, `SD_DumpStatus`) is not modelled.
-/

namespace UsbMassStorage

/-! ## Local definitions (main.c, lines 148-167) -/

/-- Total number of SDMMC interfaces. -/
def BOARD_NUM_SDMMC : Nat := 2

/-- Maximum number of LUNs which can be defined. -/
def MAX_LUNS : Nat := BOARD_NUM_SDMMC + 1

/-- Size of one block in bytes. -/
def BLOCK_SIZE : Nat := 512

/-- Media index of the RAM disk. -/
def DRV_RAMDISK : Nat := 0

/-- RamDisk size in bytes. -/
def RAMDISK_SIZE : Nat := 8 * 1024 * 1024

/-- Size of the MSD IO buffer in bytes. -/
def MSD_BUFFER_SIZE : Nat := 128 * BLOCK_SIZE

/-- Declared length of the array `ramdisk_reserved[RAMDISK_SIZE]` (line 185). -/
def ramdisk_reserved_length : Nat := RAMDISK_SIZE

/-! ## Objects named by pointers -/

/-- The two SD card library instances `sd_lib0` and `sd_lib1` (lines 202-203). -/
inductive SdCard where
  | sd_lib0
  | sd_lib1
  deriving DecidableEq, Repr

/-- The table `sd_lib[BOARD_NUM_SDMMC] = { &sd_lib0, &sd_lib1 }` (line 204). -/
def sd_lib : List SdCard := [SdCard.sd_lib0, SdCard.sd_lib1]

/-- The LUN read/write buffers `ram_buffer`, `sd_buffer0`, `sd_buffer1` (lines 210-214). -/
inductive Buffer where
  | ram_buffer
  | sd_buffer0
  | sd_buffer1
  deriving DecidableEq, Repr

/-- The table `sd_buffer[BOARD_NUM_SDMMC] = { sd_buffer0, sd_buffer1 }` (line 215). -/
def sd_buffer : List Buffer := [Buffer.sd_buffer0, Buffer.sd_buffer1]

/-- Functions of `main.c` that are passed as a data monitor. -/
inductive Callback where
  | msd_callbacks_data
  deriving DecidableEq, Repr

/-- Modelled from the spec: `media_ramdisk_init` and `media_sdusb_initialize`
(libstoragemedia) are not among the sources. An entry of `medias` is represented by the
initialiser last applied to it and the arguments it received: a fixed in-memory medium
with base address (in blocks), block count and block size, or a removable-card medium
with its card instance. `unset` is the zero-filled entry the program starts with. -/
inductive Media where
  | unset
  | ramdisk (baseAddress : Nat) (size : Nat) (blockSize : Nat)
  | sdcard (card : SdCard)
  deriving DecidableEq, Repr

/-- Modelled from the spec: `lun_init` (usb/device/msd/msd_lun) is not among the
sources. A logical unit binds one storage medium to an I/O buffer of a given capacity;
it is represented by the eight arguments that the last `lun_init` call on it received
after the unit pointer itself. `media` is the index k of `&medias[k]`; `none` stands
for the null pointer `0`. -/
structure MSDLun where
  media : Option Nat
  ioBuffer : Option Buffer
  ioBufferSize : Nat
  baseAddress : Nat
  size : Nat
  blockSize : Nat
  isProtected : Nat
  dataMonitor : Option Callback
  deriving DecidableEq, Repr

/-- Calls into other translation units, and the one empty block of `main`,
in the order in which the program reaches them. -/
inductive Event where
  | lun_init (lun : Nat) (args : MSDLun)
  | media_ramdisk_init (media : Nat) (baseAddress : Nat) (size : Nat) (blockSize : Nat)
  | media_sdusb_initialize (media : Nat) (card : SdCard)
  | SD_GetStatus (card : SdCard)
  | SD_Init (card : SdCard)
  | msd_driver_initialize (luns : List (Option MSDLun)) (numLuns : Nat)
  | usbd_get_state
  | msd_driver_state_machine
  | flush_disk_media
  deriving DecidableEq, Repr

/-- The file-scope variables of `main.c`, with the ghost call trace. An entry `none`
of `luns` is a unit on which `lun_init` has not been called yet. -/
structure State where
  medias : List Media
  luns : List (Option MSDLun)
  current_lun_num : Nat
  msd_write_total : Nat
  msd_refresh : Nat
  trace : List Event
  deriving DecidableEq, Repr

/-- The state at program start: zero-filled arrays, all counters 0 (lines 225-230). -/
def startup : State :=
  { medias := List.replicate MAX_LUNS Media.unset
    luns := List.replicate MAX_LUNS none
    current_lun_num := 0
    msd_write_total := 0
    msd_refresh := 0
    trace := [] }

/-- What the code of other translation units supplies: the values of the constants
`SDMMC_OK`, `SDMMC_NOT_SUPPORTED` and `USBD_STATE_CONFIGURED`, the address of
`ramdisk_reserved`, and the return values of `SD_GetStatus` and `SD_Init` per card. -/
structure Platform where
  SDMMC_OK : Nat
  SDMMC_NOT_SUPPORTED : Nat
  USBD_STATE_CONFIGURED : Nat
  ramdisk_reserved : Nat
  SD_GetStatus : SdCard → Nat
  SD_Init : SdCard → Nat

/-- Append an event to the trace. -/
def State.emit (s : State) (e : Event) : State :=
  { s with trace := s.trace ++ [e] }

/-- Store `v` at index `i` of an array; `none` when `i` is outside the array. -/
def store {α : Type} (xs : List α) (i : Nat) (v : α) : Option (List α) :=
  if i < xs.length then some (xs.set i v) else none

/-! ## Callbacks (lines 258-272) -/

/-- Function `msd_callbacks_data`: invoked when the MSD finishes a READ/WRITE. -/
def msd_callbacks_data (flow_direction data_length fifo_null_count fifo_full_count : Nat)
    (s : State) : State :=
  if flow_direction = 0 then
    { s with msd_write_total := (s.msd_write_total + data_length) % 2 ^ 32 }
  else s

/-! ## Internal functions (lines 354-441) -/

/-- The arguments of the call `lun_init(&luns[i], 0, 0, 0, 0, 0, 0, 0, 0)` (line 434). -/
def lun_reset : MSDLun :=
  { media := none, ioBuffer := none, ioBufferSize := 0, baseAddress := 0, size := 0,
    blockSize := 0, isProtected := 0, dataMonitor := none }

/-- The call `lun_init(&luns[lun], args...)`: `none` when `lun` is outside `luns`. -/
def lun_init (lun : Nat) (args : MSDLun) (s : State) : Option State := do
  let luns ← store s.luns lun (some args)
  pure ({ s with luns := luns }.emit (Event.lun_init lun args))

/-- Function `ramdisk_init` (lines 354-370). -/
def ramdisk_init (p : Platform) (s : State) : Option State := do
  let medias ← store s.medias DRV_RAMDISK
    (Media.ramdisk (p.ramdisk_reserved / BLOCK_SIZE) (RAMDISK_SIZE / BLOCK_SIZE) BLOCK_SIZE)
  let s := { s with medias := medias }.emit
    (Event.media_ramdisk_init DRV_RAMDISK (p.ramdisk_reserved / BLOCK_SIZE)
      (RAMDISK_SIZE / BLOCK_SIZE) BLOCK_SIZE)
  let s ← lun_init DRV_RAMDISK
    { media := some DRV_RAMDISK, ioBuffer := some Buffer.ram_buffer,
      ioBufferSize := MSD_BUFFER_SIZE, baseAddress := 0, size := 0, blockSize := 0,
      isProtected := 0, dataMonitor := some Callback.msd_callbacks_data } s
  pure { s with current_lun_num := (s.current_lun_num + 1) % 2 ^ 8 }

/-- Function `card_init` (lines 376-390): returns the state after the call and the result. -/
def card_init (p : Platform) (num : Nat) (s : State) : Option (State × Bool) := do
  let pSd ← sd_lib[num]?
  let s := s.emit (Event.SD_Init pSd)
  let rc := p.SD_Init pSd
  if rc ≠ p.SDMMC_OK then pure (s, false) else pure (s, true)

/-- The body of the second `for` loop of `sddisk_init` (lines 403-420), for slot `i`.
The local array `sd_connected` is threaded with the state. -/
def sddisk_init_body (p : Platform) (acc : State × List Nat) (i : Nat) :
    Option (State × List Nat) := do
  let s := acc.1
  let sd_connected := acc.2
  let card ← sd_lib[i]?
  let s := s.emit (Event.SD_GetStatus card)
  if p.SD_GetStatus card ≠ p.SDMMC_NOT_SUPPORTED then
    let c ← sd_connected[i]?
    if c = 0 then
      let sd_connected ← store sd_connected i 1
      let (s, rc) ← card_init p i s
      if rc then
        let pSd ← sd_lib[i]?
        let medias ← store s.medias s.current_lun_num (Media.sdcard pSd)
        let s := { s with medias := medias }.emit
          (Event.media_sdusb_initialize s.current_lun_num pSd)
        let buf ← sd_buffer[i]?
        let s ← lun_init s.current_lun_num
          { media := some s.current_lun_num, ioBuffer := some buf,
            ioBufferSize := MSD_BUFFER_SIZE, baseAddress := 0, size := 0, blockSize := 0,
            isProtected := 0, dataMonitor := some Callback.msd_callbacks_data } s
        pure ({ s with current_lun_num := (s.current_lun_num + 1) % 2 ^ 8 }, sd_connected)
      else pure (s, sd_connected)
    else pure (s, sd_connected)
  else
    let sd_connected ← store sd_connected i 0
    pure (s, sd_connected)

/-- Function `sddisk_init` (lines 395-423): the first loop clears `sd_connected`, the second
visits the slots 0 .. BOARD_NUM_SDMMC-1 in order. -/
def sddisk_init (p : Platform) (s : State) : Option State := do
  let sd_connected ← (List.range BOARD_NUM_SDMMC).foldlM
    (fun (a : List Nat) i => store a i 0) (List.replicate BOARD_NUM_SDMMC 0)
  let r ← (List.range BOARD_NUM_SDMMC).foldlM (sddisk_init_body p) (s, sd_connected)
  pure r.1

/-- Function `_MemoriesInitialize` (lines 428-441): reset all LUNs, then the RAM disk, then
the SD cards. -/
def _MemoriesInitialize (p : Platform) (s : State) : Option State := do
  let s ← (List.range MAX_LUNS).foldlM (fun (a : State) i => lun_init i lun_reset a) s
  let s ← ramdisk_init p s
  sddisk_init p s

/-! ## `main` (lines 452-484) -/

/-- The part of `main` before the service loop that touches the modelled variables:
`_MemoriesInitialize()` followed by
`msd_driver_initialize(&msd_driver_descriptors, luns, current_lun_num)`. -/
def main_startup (p : Platform) (s : State) : Option State := do
  let s ← _MemoriesInitialize p s
  pure (s.emit (Event.msd_driver_initialize s.luns s.current_lun_num))

/-- One transfer completion reported by the driver: the four arguments with which it
invokes the data monitor. -/
structure Transfer where
  flow_direction : Nat
  data_length : Nat
  fifo_null_count : Nat
  fifo_full_count : Nat
  deriving DecidableEq, Repr

/-- What the USB stack does during one iteration of the service loop: the value
returned by `usbd_get_state()` and the transfers whose completion the driver reports,
through the data monitor, inside `msd_driver_state_machine()`. -/
structure Step where
  usbd_state : Nat
  transfers : List Transfer

/-- The call `msd_driver_state_machine()`: the driver reaches the variables of `main.c`
only through the data monitor `msd_callbacks_data` registered by `lun_init`. -/
def msd_driver_state_machine (transfers : List Transfer) (s : State) : State :=
  transfers.foldl
    (fun a t => msd_callbacks_data t.flow_direction t.data_length t.fifo_null_count
      t.fifo_full_count a)
    (s.emit Event.msd_driver_state_machine)

/-- The body of `while (1)` in `main` (lines 471-483). The block of line 477-479 holds
only the comment "Flush Disk Media"; entering it is recorded as `flush_disk_media`. -/
def main_loop_body (p : Platform) (e : Step) (s : State) : State :=
  let s := s.emit Event.usbd_get_state
  if e.usbd_state ≥ p.USBD_STATE_CONFIGURED then
    let s := msd_driver_state_machine e.transfers s
    if s.msd_refresh ≠ 0 then
      let s := { s with msd_refresh := 0 }
      let s := if s.msd_write_total < 50 * 1000 then s.emit Event.flush_disk_media else s
      { s with msd_write_total := 0 }
    else s
  else s

/-! ## Closed forms used in the statements and proofs -/

/-- The arguments of the `lun_init` call of `ramdisk_init` (lines 363-367). -/
def ramdisk_lun : MSDLun :=
  { media := some DRV_RAMDISK, ioBuffer := some Buffer.ram_buffer,
    ioBufferSize := MSD_BUFFER_SIZE, baseAddress := 0, size := 0, blockSize := 0,
    isProtected := 0, dataMonitor := some Callback.msd_callbacks_data }

/-- The arguments of the `lun_init` call of `sddisk_init` (lines 411-413) for the unit
index `n` and the buffer `buf`. -/
def sd_lun (n : Nat) (buf : Buffer) : MSDLun :=
  { media := some n, ioBuffer := some buf,
    ioBufferSize := MSD_BUFFER_SIZE, baseAddress := 0, size := 0, blockSize := 0,
    isProtected := 0, dataMonitor := some Callback.msd_callbacks_data }

/-- The medium that `ramdisk_init` creates. -/
def ramdisk_media (p : Platform) : Media :=
  Media.ramdisk (p.ramdisk_reserved / BLOCK_SIZE) (RAMDISK_SIZE / BLOCK_SIZE) BLOCK_SIZE

/-- A slot yields a unit when its status is not `SDMMC_NOT_SUPPORTED` and `SD_Init`
returns `SDMMC_OK`. -/
def slot_present (p : Platform) (c : SdCard) : Prop :=
  p.SD_GetStatus c ≠ p.SDMMC_NOT_SUPPORTED ∧ p.SD_Init c = p.SDMMC_OK

instance (p : Platform) (c : SdCard) : Decidable (slot_present p c) := by
  unfold slot_present; infer_instance

/-- Closed form of one visit of a slot by `sddisk_init`, for the card `c` and the
buffer `b` of the slot. -/
def probe (p : Platform) (c : SdCard) (b : Buffer) (s : State) : Option State :=
  if p.SD_GetStatus c = p.SDMMC_NOT_SUPPORTED then some (s.emit (Event.SD_GetStatus c))
  else if p.SD_Init c ≠ p.SDMMC_OK then
    some ((s.emit (Event.SD_GetStatus c)).emit (Event.SD_Init c))
  else if s.current_lun_num < s.medias.length ∧ s.current_lun_num < s.luns.length then
    some { s with
      medias := s.medias.set s.current_lun_num (Media.sdcard c)
      luns := s.luns.set s.current_lun_num (some (sd_lun s.current_lun_num b))
      current_lun_num := (s.current_lun_num + 1) % 2 ^ 8
      trace := s.trace ++ [Event.SD_GetStatus c, Event.SD_Init c,
        Event.media_sdusb_initialize s.current_lun_num c,
        Event.lun_init s.current_lun_num (sd_lun s.current_lun_num b)] }
  else none

/-- The array index through which a call stores, for the calls that initialise an
entry of `medias` or of `luns`. -/
def Event.index : Event → Option Nat
  | Event.lun_init lun _ => some lun
  | Event.media_ramdisk_init media _ _ _ => some media
  | Event.media_sdusb_initialize media _ => some media
  | _ => none

/-- A unit is fully initialised when its medium, its buffer and its buffer size are
all set. -/
def MSDLun.fully_initialised (u : MSDLun) : Prop :=
  u.media.isSome = true ∧ u.ioBuffer.isSome = true ∧ u.ioBufferSize ≠ 0

instance (u : MSDLun) : Decidable u.fully_initialised := by
  unfold MSDLun.fully_initialised; infer_instance

/-- The value of `msd_write_total` that the test of line 477 reads in an iteration of
the service loop: the total after the transfers reported during this iteration. -/
def total_at_trigger (e : Step) (s : State) : Nat :=
  (msd_driver_state_machine e.transfers (s.emit Event.usbd_get_state)).msd_write_total

/-- The slots that yield a unit, in ascending slot order, each with its card instance
and its buffer. -/
def present_slots (p : Platform) : List (SdCard × Buffer) :=
  (sd_lib.zip sd_buffer).filter (fun cb => decide (slot_present p cb.1))

/-- A platform for instantiating the theorems: `g0`, `g1` are the values returned by
`SD_GetStatus` and `i0`, `i1` those returned by `SD_Init` for slot 0 and slot 1. The
numeric values chosen for the constants are immaterial to the theorems. -/
def sample_platform (g0 g1 i0 i1 : Nat) : Platform :=
  { SDMMC_OK := 0
    SDMMC_NOT_SUPPORTED := 12
    USBD_STATE_CONFIGURED := 5
    ramdisk_reserved := 0x20000000
    SD_GetStatus := fun c => match c with
      | SdCard.sd_lib0 => g0
      | SdCard.sd_lib1 => g1
    SD_Init := fun c => match c with
      | SdCard.sd_lib0 => i0
      | SdCard.sd_lib1 => i1 }

/-- Declared length of a LUN read/write buffer: each of `ram_buffer`, `sd_buffer0` and
`sd_buffer1` is declared as `uint8_t x[MSD_BUFFER_SIZE]` (lines 210-214). -/
def Buffer.length : Buffer → Nat
  | Buffer.ram_buffer => MSD_BUFFER_SIZE
  | Buffer.sd_buffer0 => MSD_BUFFER_SIZE
  | Buffer.sd_buffer1 => MSD_BUFFER_SIZE

/-- The state of `main` (lines 452-484) after the startup part and the iterations of
`while (1)` described by `steps`, in order. -/
def main (p : Platform) (steps : List Step) : Option State := do
  let s ← main_startup p startup
  pure (steps.foldl (fun a e => main_loop_body p e a) s)

/-- The transfers reported to the data monitor during a run of the service loop: those
of the iterations in which the transport is configured, in order. -/
def serviced (p : Platform) : List Step → List Transfer
  | [] => []
  | e :: es =>
    (if e.usbd_state ≥ p.USBD_STATE_CONFIGURED then e.transfers else []) ++ serviced p es

/-- The number of bytes written by the host in a list of transfers: the sum of
`data_length` over the transfers with `flow_direction` 0. -/
def bytes_written : List Transfer → Nat
  | [] => 0
  | t :: ts => (if t.flow_direction = 0 then t.data_length else 0) + bytes_written ts

/-! ## Lemmas -/

theorem list_length_three {α : Type} (xs : List α) (h : xs.length = 3) :
    ∃ a b c, xs = [a, b, c] := by
  match xs, h with
  | [a, b, c], _ => exact ⟨a, b, c, rfl⟩

theorem reset_loop_eq (s : State) (h : s.luns.length = MAX_LUNS) :
    (List.range MAX_LUNS).foldlM (fun (a : State) i => lun_init i lun_reset a) s =
      some { s with
        luns := [some lun_reset, some lun_reset, some lun_reset]
        trace := s.trace ++ [Event.lun_init 0 lun_reset, Event.lun_init 1 lun_reset,
          Event.lun_init 2 lun_reset] } := by
  obtain ⟨a, b, c, habc⟩ := list_length_three s.luns h
  simp [MAX_LUNS, BOARD_NUM_SDMMC, List.range, List.range.loop, lun_init, store, State.emit,
    habc]

theorem ramdisk_init_eq (p : Platform) (s : State) (hm : 0 < s.medias.length)
    (hl : 0 < s.luns.length) :
    ramdisk_init p s =
      some { s with
        medias := s.medias.set 0 (ramdisk_media p)
        luns := s.luns.set 0 (some ramdisk_lun)
        current_lun_num := (s.current_lun_num + 1) % 2 ^ 8
        trace := s.trace ++ [Event.media_ramdisk_init 0 (p.ramdisk_reserved / BLOCK_SIZE)
          (RAMDISK_SIZE / BLOCK_SIZE) BLOCK_SIZE, Event.lun_init 0 ramdisk_lun] } := by
  simp [ramdisk_init, lun_init, store, State.emit, DRV_RAMDISK, hm, hl, ramdisk_media,
    ramdisk_lun]

theorem sddisk_init_body_eq (p : Platform) (s : State) (conn : List Nat) (i : Nat)
    (c : SdCard) (b : Buffer) (hc : sd_lib[i]? = some c) (hb : sd_buffer[i]? = some b)
    (hi : conn[i]? = some 0) :
    sddisk_init_body p (s, conn) i =
      (probe p c b s).map (fun s' =>
        (s', conn.set i (if p.SD_GetStatus c = p.SDMMC_NOT_SUPPORTED then 0 else 1))) := by
  have hlt : i < conn.length := (List.getElem?_eq_some.1 hi).1
  by_cases h : p.SD_GetStatus c = p.SDMMC_NOT_SUPPORTED
  · simp [sddisk_init_body, probe, hc, h, store, hlt]
  · by_cases hinit : p.SD_Init c = p.SDMMC_OK
    · by_cases hm : s.current_lun_num < s.medias.length
      · by_cases hl : s.current_lun_num < s.luns.length
        · simp [sddisk_init_body, probe, hc, hb, h, store, hi, hlt, card_init, hinit, hm, hl,
            lun_init, State.emit, sd_lun]
        · simp [sddisk_init_body, probe, hc, hb, h, store, hi, hlt, card_init, hinit, hm, hl,
            lun_init, State.emit, sd_lun]
      · simp [sddisk_init_body, probe, hc, hb, h, store, hi, hlt, card_init, hinit, hm,
            lun_init, State.emit, sd_lun]
    · simp [sddisk_init_body, probe, hc, h, store, hi, hlt, card_init, hinit]

theorem sddisk_init_eq (p : Platform) (s : State) :
    sddisk_init p s =
      (probe p SdCard.sd_lib0 Buffer.sd_buffer0 s).bind
        (probe p SdCard.sd_lib1 Buffer.sd_buffer1) := by
  have h0 := sddisk_init_body_eq p s [0, 0] 0 SdCard.sd_lib0 Buffer.sd_buffer0 rfl rfl rfl
  simp only [sddisk_init, BOARD_NUM_SDMMC, List.range, List.range.loop, List.foldlM,
    List.replicate, store]
  simp only [List.length, Nat.lt_add_one, Nat.zero_lt_succ, if_true, List.set, Nat.reduceAdd,
    Nat.reduceLT, Option.some_bind, Option.bind_eq_bind, Option.pure_def, h0]
  cases hp : probe p SdCard.sd_lib0 Buffer.sd_buffer0 s with
  | none => simp
  | some s1 =>
    have h1 := sddisk_init_body_eq p s1
      [if p.SD_GetStatus SdCard.sd_lib0 = p.SDMMC_NOT_SUPPORTED then 0 else 1, 0]
      1 SdCard.sd_lib1 Buffer.sd_buffer1 rfl rfl rfl
    simp only [Option.map_some', Option.some_bind, h1]
    cases probe p SdCard.sd_lib1 Buffer.sd_buffer1 s1 <;> simp

theorem MemoriesInitialize_eq (p : Platform) (s : State) (hm : s.medias.length = MAX_LUNS)
    (hl : s.luns.length = MAX_LUNS) :
    _MemoriesInitialize p s =
      (probe p SdCard.sd_lib0 Buffer.sd_buffer0
        { s with
          medias := s.medias.set 0 (ramdisk_media p)
          luns := [some ramdisk_lun, some lun_reset, some lun_reset]
          current_lun_num := (s.current_lun_num + 1) % 2 ^ 8
          trace := s.trace ++ [Event.lun_init 0 lun_reset, Event.lun_init 1 lun_reset,
            Event.lun_init 2 lun_reset,
            Event.media_ramdisk_init 0 (p.ramdisk_reserved / BLOCK_SIZE)
              (RAMDISK_SIZE / BLOCK_SIZE) BLOCK_SIZE,
            Event.lun_init 0 ramdisk_lun] }).bind
        (probe p SdCard.sd_lib1 Buffer.sd_buffer1) := by
  unfold _MemoriesInitialize
  rw [reset_loop_eq s hl]
  simp only [Option.bind_eq_bind, Option.some_bind]
  rw [ramdisk_init_eq p _ (by simp [hm, MAX_LUNS, BOARD_NUM_SDMMC]) (by simp)]
  simp only [Option.some_bind, sddisk_init_eq, List.set, List.append_assoc, List.cons_append,
    List.nil_append]


theorem MemoriesInitialize_startup (p : Platform) :
    _MemoriesInitialize p startup =
      (probe p SdCard.sd_lib0 Buffer.sd_buffer0
        { medias := [ramdisk_media p, Media.unset, Media.unset]
          luns := [some ramdisk_lun, some lun_reset, some lun_reset]
          current_lun_num := 1
          msd_write_total := 0
          msd_refresh := 0
          trace := [Event.lun_init 0 lun_reset, Event.lun_init 1 lun_reset,
            Event.lun_init 2 lun_reset,
            Event.media_ramdisk_init 0 (p.ramdisk_reserved / BLOCK_SIZE)
              (RAMDISK_SIZE / BLOCK_SIZE) BLOCK_SIZE,
            Event.lun_init 0 ramdisk_lun] }).bind
        (probe p SdCard.sd_lib1 Buffer.sd_buffer1) := by
  rw [MemoriesInitialize_eq p startup rfl rfl]
  rfl

theorem msd_callbacks_data_eq (d n a b : Nat) (s : State) :
    msd_callbacks_data d n a b s =
      { s with msd_write_total :=
          if d = 0 then (s.msd_write_total + n) % 2 ^ 32 else s.msd_write_total } := by
  unfold msd_callbacks_data
  split <;> rfl

theorem transfers_foldl_frame (ts : List Transfer) (s : State) :
    let s' := ts.foldl
      (fun a t => msd_callbacks_data t.flow_direction t.data_length t.fifo_null_count
        t.fifo_full_count a) s
    s'.medias = s.medias ∧ s'.luns = s.luns ∧ s'.current_lun_num = s.current_lun_num ∧
      s'.msd_refresh = s.msd_refresh ∧ s'.trace = s.trace := by
  induction ts generalizing s with
  | nil => simp
  | cons t ts ih =>
    have h := ih (msd_callbacks_data t.flow_direction t.data_length t.fifo_null_count
      t.fifo_full_count s)
    simp only [List.foldl_cons]
    rw [msd_callbacks_data_eq] at h ⊢
    exact h

theorem msd_driver_state_machine_frame (ts : List Transfer) (s : State) :
    (msd_driver_state_machine ts s).medias = s.medias ∧
      (msd_driver_state_machine ts s).luns = s.luns ∧
      (msd_driver_state_machine ts s).current_lun_num = s.current_lun_num ∧
      (msd_driver_state_machine ts s).msd_refresh = s.msd_refresh ∧
      (msd_driver_state_machine ts s).trace = s.trace ++ [Event.msd_driver_state_machine] :=
  transfers_foldl_frame ts (s.emit Event.msd_driver_state_machine)

theorem main_loop_body_triggered (p : Platform) (e : Step) (s : State)
    (hcfg : e.usbd_state ≥ p.USBD_STATE_CONFIGURED) (hrefresh : s.msd_refresh ≠ 0) :
    main_loop_body p e s =
      { medias := s.medias
        luns := s.luns
        current_lun_num := s.current_lun_num
        msd_write_total := 0
        msd_refresh := 0
        trace := s.trace ++ [Event.usbd_get_state, Event.msd_driver_state_machine] ++
          (if total_at_trigger e s < 50 * 1000 then [Event.flush_disk_media] else []) } := by
  have hf := msd_driver_state_machine_frame e.transfers (s.emit Event.usbd_get_state)
  simp only [State.emit] at hf
  obtain ⟨h1, h2, h3, h4, h5⟩ := hf
  by_cases ht : total_at_trigger e s < 50 * 1000
  · have ht' := ht
    simp only [total_at_trigger, State.emit] at ht'
    simp [main_loop_body, State.emit, hcfg, hrefresh, h1, h2, h3, h4, h5, ht, ht']
  · have ht' := ht
    simp only [total_at_trigger, State.emit] at ht'
    simp [main_loop_body, State.emit, hcfg, hrefresh, h1, h2, h3, h4, h5, ht, ht']

theorem slot_cases (i : Nat) (c : SdCard) (b : Buffer) (hc : sd_lib[i]? = some c)
    (hb : sd_buffer[i]? = some b) :
    (c = SdCard.sd_lib0 ∧ b = Buffer.sd_buffer0) ∨
      (c = SdCard.sd_lib1 ∧ b = Buffer.sd_buffer1) := by
  match i, hc, hb with
  | 0, hc, hb =>
    simp only [sd_lib, sd_buffer, List.getElem?_cons_zero, Option.some.injEq] at hc hb
    exact Or.inl ⟨hc.symm, hb.symm⟩
  | 1, hc, hb =>
    simp only [sd_lib, sd_buffer, List.getElem?_cons_succ, List.getElem?_cons_zero,
      Option.some.injEq] at hc hb
    exact Or.inr ⟨hc.symm, hb.symm⟩
  | n + 2, hc, _ =>
    simp [sd_lib] at hc

theorem mem_set_three {α : Type} (x y z v w : α) (n : Nat) (h : w ∈ [x, y, z].set n v) :
    w = x ∨ w = y ∨ w = z ∨ w = v := by
  rcases List.mem_or_eq_of_mem_set h with h' | h'
  · simp only [List.mem_cons, List.mem_singleton, List.not_mem_nil, or_false] at h'
    rcases h' with h' | h' | h'
    · exact Or.inl h'
    · exact Or.inr (Or.inl h')
    · exact Or.inr (Or.inr (Or.inl h'))
  · exact Or.inr (Or.inr (Or.inr h'))

theorem other_slots_of_sd_lib0 (p : Platform) :
    (sd_lib.filter (fun d => decide (d ≠ SdCard.sd_lib0 ∧ slot_present p d))).length =
      if slot_present p SdCard.sd_lib1 then 1 else 0 := by
  by_cases h : slot_present p SdCard.sd_lib1 <;> simp [sd_lib, List.filter, h]

theorem other_slots_of_sd_lib1 (p : Platform) :
    (sd_lib.filter (fun d => decide (d ≠ SdCard.sd_lib1 ∧ slot_present p d))).length =
      if slot_present p SdCard.sd_lib0 then 1 else 0 := by
  by_cases h : slot_present p SdCard.sd_lib0 <;> simp [sd_lib, List.filter, h]

/-! ## The claims -/

/-- C1. Flush-policy reset: whatever the accumulated write total is, an iteration of the
service-loop body executed while the transport is configured and `msd_refresh` is set
ends with `msd_write_total = 0` and `msd_refresh = 0`. -/
theorem C1_flush_policy_reset (p : Platform) (e : Step) (s : State)
    (hcfg : e.usbd_state ≥ p.USBD_STATE_CONFIGURED) (hrefresh : s.msd_refresh ≠ 0) :
    (main_loop_body p e s).msd_write_total = 0 ∧ (main_loop_body p e s).msd_refresh = 0 := by
  rw [main_loop_body_triggered p e s hcfg hrefresh]
  exact ⟨rfl, rfl⟩

/-- Instance of C1 with a total equal to the threshold of 50,000 bytes. -/
theorem C1_flush_policy_reset_witness :
    (main_loop_body (sample_platform 12 12 0 0) { usbd_state := 5, transfers := [] }
        { startup with msd_write_total := 50000, msd_refresh := 1 }).msd_write_total = 0 ∧
      (main_loop_body (sample_platform 12 12 0 0) { usbd_state := 5, transfers := [] }
        { startup with msd_write_total := 50000, msd_refresh := 1 }).msd_refresh = 0 :=
  C1_flush_policy_reset (sample_platform 12 12 0 0) { usbd_state := 5, transfers := [] }
    { startup with msd_write_total := 50000, msd_refresh := 1 } (by decide) (by decide)

/-- C2, as stated, fails: when the trigger fires after a write of 50,001 bytes the
iteration reaches no flush (the only events are the state query and the driver step, and
media and units are untouched), while after a write of 49,999 bytes the block marked
"Flush Disk Media" is the one that is entered. -/
theorem C2_flush_threshold_counterexample :
    Event.flush_disk_media ∉
        (main_loop_body (sample_platform 12 12 0 0)
          { usbd_state := 5, transfers := [⟨0, 50001, 0, 0⟩] }
          { startup with msd_refresh := 1 }).trace ∧
      main_loop_body (sample_platform 12 12 0 0)
          { usbd_state := 5, transfers := [⟨0, 50001, 0, 0⟩] }
          { startup with msd_refresh := 1 } =
        { startup with trace := [Event.usbd_get_state, Event.msd_driver_state_machine] } ∧
      Event.flush_disk_media ∈
        (main_loop_body (sample_platform 12 12 0 0)
          { usbd_state := 5, transfers := [⟨0, 49999, 0, 0⟩] }
          { startup with msd_refresh := 1 }).trace := by
  decide

/-- C2, amended. When the trigger fires in a configured iteration, the total is 0
afterwards; the block marked "Flush Disk Media" is entered exactly when the total read
by the test is below 50,000 (so for 49,999 and not for 50,001); that block is empty:
besides the two counters nothing changes, and the only calls made are the state query
and the driver step. -/
theorem C2_flush_threshold_amended (p : Platform) (e : Step) (s : State)
    (hcfg : e.usbd_state ≥ p.USBD_STATE_CONFIGURED) (hrefresh : s.msd_refresh ≠ 0) :
    (main_loop_body p e s).msd_write_total = 0 ∧
      (total_at_trigger e s < 50000 →
        (main_loop_body p e s).trace =
          s.trace ++ [Event.usbd_get_state, Event.msd_driver_state_machine,
            Event.flush_disk_media]) ∧
      (50000 ≤ total_at_trigger e s →
        (main_loop_body p e s).trace =
          s.trace ++ [Event.usbd_get_state, Event.msd_driver_state_machine]) ∧
      (main_loop_body p e s).medias = s.medias ∧
      (main_loop_body p e s).luns = s.luns ∧
      (main_loop_body p e s).current_lun_num = s.current_lun_num := by
  rw [main_loop_body_triggered p e s hcfg hrefresh]
  refine ⟨rfl, ?_, ?_, rfl, rfl, rfl⟩
  · intro h
    have h' : total_at_trigger e s < 50 * 1000 := h
    simp [h']
  · intro h
    have h' : ¬ total_at_trigger e s < 50 * 1000 := by omega
    simp [h']

/-- Instance of the amended C2: a write of 49,999 bytes followed by a trigger. -/
theorem C2_flush_threshold_amended_witness :
    total_at_trigger { usbd_state := 5, transfers := [⟨0, 49999, 0, 0⟩] }
        { startup with msd_refresh := 1 } = 49999 ∧
      (main_loop_body (sample_platform 12 12 0 0)
          { usbd_state := 5, transfers := [⟨0, 49999, 0, 0⟩] }
          { startup with msd_refresh := 1 }).msd_write_total = 0 ∧
      (main_loop_body (sample_platform 12 12 0 0)
          { usbd_state := 5, transfers := [⟨0, 49999, 0, 0⟩] }
          { startup with msd_refresh := 1 }).trace =
        [Event.usbd_get_state, Event.msd_driver_state_machine, Event.flush_disk_media] :=
  have h := C2_flush_threshold_amended (sample_platform 12 12 0 0)
    { usbd_state := 5, transfers := [⟨0, 49999, 0, 0⟩] }
    { startup with msd_refresh := 1 } (by decide) (by decide)
  ⟨by decide, h.1, h.2.1 (by decide)⟩

/-- C3. Fixed medium is always unit 0: whatever the two slots report, after
`_MemoriesInitialize` run from the startup state `luns[0]` is bound to `medias[0]` with
the buffer `ram_buffer` of capacity `MSD_BUFFER_SIZE`, `medias[0]` is the RAM disk, and
no removable medium was placed at index 0: `media_sdusb_initialize` was never called on
`medias[0]` and `lun_init` was called on `luns[0]` only for the reset and for the RAM
disk. -/
theorem C3_fixed_medium_unit_zero (p : Platform) :
    ∃ s u, _MemoriesInitialize p startup = some s ∧
      s.luns[0]? = some (some u) ∧
      u.media = some 0 ∧ u.ioBuffer = some Buffer.ram_buffer ∧
      u.ioBufferSize = MSD_BUFFER_SIZE ∧
      s.medias[0]? = some (Media.ramdisk (p.ramdisk_reserved / BLOCK_SIZE)
        (RAMDISK_SIZE / BLOCK_SIZE) BLOCK_SIZE) ∧
      (∀ c, Event.media_sdusb_initialize 0 c ∉ s.trace) ∧
      (∀ a, Event.lun_init 0 a ∈ s.trace → a = lun_reset ∨ a = u) := by
  rw [MemoriesInitialize_startup]
  by_cases h0 : p.SD_GetStatus SdCard.sd_lib0 = p.SDMMC_NOT_SUPPORTED <;>
  by_cases h1 : p.SD_GetStatus SdCard.sd_lib1 = p.SDMMC_NOT_SUPPORTED <;>
  by_cases i0 : p.SD_Init SdCard.sd_lib0 = p.SDMMC_OK <;>
  by_cases i1 : p.SD_Init SdCard.sd_lib1 = p.SDMMC_OK <;>
  simp [probe, State.emit, h0, h1, i0, i1, ramdisk_media, ramdisk_lun, DRV_RAMDISK]

/-- C4, as stated, fails: two runs of `_MemoriesInitialize` in a row from the startup
state, both slots reporting `SDMMC_NOT_SUPPORTED` on both runs, end with
`current_lun_num` = 2, not 1. -/
theorem C4_enumeration_twice_counterexample :
    ((_MemoriesInitialize (sample_platform 12 12 0 0) startup).bind
        (_MemoriesInitialize (sample_platform 12 12 0 0))).map
      (fun s => (s.current_lun_num, s.luns)) =
      some (2, [some ramdisk_lun, some lun_reset, some lun_reset]) := by
  decide

/-- C4, amended. Two runs of `_MemoriesInitialize` in a row from the startup state, both
slots reporting no device on both runs, both complete; afterwards the single bound unit
is the one at index 0, bound to the RAM-disk medium, and the other two units are reset;
the counter `current_lun_num` is 1 after the first run and 2 after the second, because
`ramdisk_init` increments it on every run and nothing resets it. -/
theorem C4_enumeration_twice_amended (p q : Platform)
    (hp0 : p.SD_GetStatus SdCard.sd_lib0 = p.SDMMC_NOT_SUPPORTED)
    (hp1 : p.SD_GetStatus SdCard.sd_lib1 = p.SDMMC_NOT_SUPPORTED)
    (hq0 : q.SD_GetStatus SdCard.sd_lib0 = q.SDMMC_NOT_SUPPORTED)
    (hq1 : q.SD_GetStatus SdCard.sd_lib1 = q.SDMMC_NOT_SUPPORTED) :
    ∃ s1 s2, _MemoriesInitialize p startup = some s1 ∧
      _MemoriesInitialize q s1 = some s2 ∧
      s1.current_lun_num = 1 ∧ s2.current_lun_num = 2 ∧
      s2.luns = [some ramdisk_lun, some lun_reset, some lun_reset] ∧
      s2.medias = [ramdisk_media q, Media.unset, Media.unset] ∧
      ramdisk_lun.media = some 0 := by
  have e1 : ∃ s1, _MemoriesInitialize p startup = some s1 ∧
      s1.medias = [ramdisk_media p, Media.unset, Media.unset] ∧
      s1.luns.length = MAX_LUNS ∧ s1.current_lun_num = 1 := by
    rw [MemoriesInitialize_startup]
    simp [probe, hp0, hp1, State.emit, MAX_LUNS, BOARD_NUM_SDMMC]
  obtain ⟨s1, hs1, hm1, hl1, hc1⟩ := e1
  refine ⟨s1, ?_⟩
  rw [MemoriesInitialize_eq q s1 (by rw [hm1]; rfl) hl1]
  simp [probe, hq0, hq1, State.emit, hs1, hc1, hm1, ramdisk_lun, DRV_RAMDISK]

/-- Instance of the amended C4 on a platform whose two slots report
`SDMMC_NOT_SUPPORTED`. -/
theorem C4_enumeration_twice_amended_witness :
    ∃ s1 s2, _MemoriesInitialize (sample_platform 12 12 0 0) startup = some s1 ∧
      _MemoriesInitialize (sample_platform 12 12 0 0) s1 = some s2 ∧
      s1.current_lun_num = 1 ∧ s2.current_lun_num = 2 ∧
      s2.luns = [some ramdisk_lun, some lun_reset, some lun_reset] ∧
      s2.medias = [ramdisk_media (sample_platform 12 12 0 0), Media.unset, Media.unset] ∧
      ramdisk_lun.media = some 0 :=
  C4_enumeration_twice_amended (sample_platform 12 12 0 0) (sample_platform 12 12 0 0)
    rfl rfl rfl rfl

/-- C5. Enumeration result: from the startup state, whatever the two slots report, the
count passed to `msd_driver_initialize` is 1 + the number of slots whose status is not
`SDMMC_NOT_SUPPORTED` and whose `SD_Init` returns `SDMMC_OK`; unit 0 is the RAM disk and
the units after it are exactly those slots in ascending slot order, each with the medium
initialised from its `sd_lib[i]` and with its buffer `sd_buffer[i]`; the remaining units
are reset. When slot 0 yields no unit and slot 1 does, slot 1 is unit 1. When slot 0
yields a unit and slot 1 is absent, the count is 2 and the units are the RAM disk and
the slot-0 card. -/
theorem C5_enumeration_result (p : Platform) :
    ∃ s, main_startup p startup = some s ∧
      s.trace.getLast? =
        some (Event.msd_driver_initialize s.luns (1 + (present_slots p).length)) ∧
      s.current_lun_num = 1 + (present_slots p).length ∧
      s.luns = some ramdisk_lun ::
        (((present_slots p).enumFrom 1).map (fun kcb => some (sd_lun kcb.1 kcb.2.2)) ++
          List.replicate (BOARD_NUM_SDMMC - (present_slots p).length) (some lun_reset)) ∧
      s.medias = ramdisk_media p ::
        ((present_slots p).map (fun cb => Media.sdcard cb.1) ++
          List.replicate (BOARD_NUM_SDMMC - (present_slots p).length) Media.unset) ∧
      (¬ slot_present p SdCard.sd_lib0 → slot_present p SdCard.sd_lib1 →
        s.luns[1]? = some (some (sd_lun 1 Buffer.sd_buffer1)) ∧
        s.medias[1]? = some (Media.sdcard SdCard.sd_lib1)) ∧
      (slot_present p SdCard.sd_lib0 →
        p.SD_GetStatus SdCard.sd_lib1 = p.SDMMC_NOT_SUPPORTED →
        s.current_lun_num = 2 ∧
        s.luns = [some ramdisk_lun, some (sd_lun 1 Buffer.sd_buffer0), some lun_reset] ∧
        s.medias = [ramdisk_media p, Media.sdcard SdCard.sd_lib0, Media.unset]) := by
  unfold main_startup
  rw [MemoriesInitialize_startup]
  by_cases h0 : p.SD_GetStatus SdCard.sd_lib0 = p.SDMMC_NOT_SUPPORTED <;>
  by_cases h1 : p.SD_GetStatus SdCard.sd_lib1 = p.SDMMC_NOT_SUPPORTED <;>
  by_cases i0 : p.SD_Init SdCard.sd_lib0 = p.SDMMC_OK <;>
  by_cases i1 : p.SD_Init SdCard.sd_lib1 = p.SDMMC_OK <;>
  simp [probe, State.emit, h0, h1, i0, i1, present_slots, slot_present, sd_lib, sd_buffer,
    BOARD_NUM_SDMMC, List.enumFrom]

/-- C6. Absent slot accounting: let slot i (card `sd_lib[i]`, buffer `sd_buffer[i]`)
report `SDMMC_NOT_SUPPORTED`, and let the counter leave room for one more unit after the
RAM disk. Then `_MemoriesInitialize` completes; among the calls it makes, the status of
the card is queried but `SD_Init` (the body of `card_init`) is never called on it, no
medium is initialised from it and no `lun_init` receives its buffer; the counter grows by
1 for the RAM disk plus 1 if the other slot yields a unit, and by nothing for slot i; and
no unit of `luns` is bound to `sd_buffer[i]` afterwards. -/
theorem C6_absent_slot_accounting (p : Platform) (s : State) (i : Nat) (c : SdCard)
    (b : Buffer) (hc : sd_lib[i]? = some c) (hb : sd_buffer[i]? = some b)
    (hm : s.medias.length = MAX_LUNS) (hl : s.luns.length = MAX_LUNS)
    (hroom : (s.current_lun_num + 1) % 2 ^ 8 < MAX_LUNS)
    (habs : p.SD_GetStatus c = p.SDMMC_NOT_SUPPORTED) :
    ∃ s' new, _MemoriesInitialize p s = some s' ∧
      s'.trace = s.trace ++ new ∧
      Event.SD_GetStatus c ∈ new ∧ Event.SD_Init c ∉ new ∧
      (∀ k, Event.media_sdusb_initialize k c ∉ new) ∧
      (∀ k a, Event.lun_init k a ∈ new → a.ioBuffer ≠ some b) ∧
      s'.current_lun_num = (s.current_lun_num + 1 +
        (sd_lib.filter (fun d => decide (d ≠ c ∧ slot_present p d))).length) % 2 ^ 8 ∧
      (∀ u, some u ∈ s'.luns → u.ioBuffer ≠ some b) := by
  have hroom' : (s.current_lun_num + 1) % 256 < 3 := hroom
  have hm' : s.medias.length = 3 := hm
  rw [MemoriesInitialize_eq p s hm hl]
  rcases slot_cases i c b hc hb with ⟨rfl, rfl⟩ | ⟨rfl, rfl⟩
  · have hcount := other_slots_of_sd_lib0 p
    by_cases h1 : p.SD_GetStatus SdCard.sd_lib1 = p.SDMMC_NOT_SUPPORTED
    · simp only [probe, habs, h1, State.emit, if_true,
        Option.some_bind, Option.some.injEq, exists_and_left, exists_eq_left',
        List.append_assoc, List.cons_append, List.nil_append, List.append_cancel_left_eq]
      refine ⟨by simp, by simp, by simp, ?_, by rw [hcount]; simp [slot_present, h1], ?_⟩
      · intro k a h
        simp only [List.mem_cons, Event.lun_init.injEq, reduceCtorEq, List.not_mem_nil,
          or_false, false_or] at h
        rcases h with ⟨_, rfl⟩ | ⟨_, rfl⟩ | ⟨_, rfl⟩ | ⟨_, rfl⟩ <;>
          simp [lun_reset, ramdisk_lun]
      · intro u hu
        simp only [List.mem_cons, Option.some.injEq, List.not_mem_nil, or_false] at hu
        rcases hu with rfl | rfl | rfl <;> simp [lun_reset, ramdisk_lun]
    · by_cases i1 : p.SD_Init SdCard.sd_lib1 = p.SDMMC_OK
      · simp only [probe, habs, h1, i1, State.emit, hroom', hm', if_true,
          if_false, Option.some_bind, Option.some.injEq, exists_and_left, exists_eq_left',
          List.append_assoc, List.cons_append, List.nil_append, List.append_cancel_left_eq,
          List.length_set, List.length, Nat.reducePow, Nat.reduceAdd, and_self, ne_eq,
          not_true_eq_false, not_false_eq_true]
        refine ⟨by simp, by simp, by simp, ?_, by rw [hcount]; simp [slot_present, h1, i1], ?_⟩
        · intro k a h
          simp only [List.mem_cons, Event.lun_init.injEq, reduceCtorEq, List.not_mem_nil,
            or_false, false_or] at h
          rcases h with ⟨_, rfl⟩ | ⟨_, rfl⟩ | ⟨_, rfl⟩ | ⟨_, rfl⟩ | ⟨_, rfl⟩ <;>
            simp [lun_reset, ramdisk_lun, sd_lun]
        · intro u hu
          rcases mem_set_three _ _ _ _ _ _ hu with h | h | h | h <;>
            simp only [Option.some.injEq] at h <;> subst h <;>
            simp [lun_reset, ramdisk_lun, sd_lun]
      · simp only [probe, habs, h1, i1, State.emit, if_true, if_false,
          Option.some_bind, Option.some.injEq, exists_and_left, exists_eq_left',
          List.append_assoc, List.cons_append, List.nil_append, List.append_cancel_left_eq,
          ne_eq, not_true_eq_false, not_false_eq_true]
        refine ⟨by simp, by simp, by simp, ?_, by rw [hcount]; simp [slot_present, h1, i1], ?_⟩
        · intro k a h
          simp only [List.mem_cons, Event.lun_init.injEq, reduceCtorEq, List.not_mem_nil,
            or_false, false_or] at h
          rcases h with ⟨_, rfl⟩ | ⟨_, rfl⟩ | ⟨_, rfl⟩ | ⟨_, rfl⟩ <;>
            simp [lun_reset, ramdisk_lun]
        · intro u hu
          simp only [List.mem_cons, Option.some.injEq, List.not_mem_nil, or_false] at hu
          rcases hu with rfl | rfl | rfl <;> simp [lun_reset, ramdisk_lun]
  · have hcount := other_slots_of_sd_lib1 p
    by_cases h1 : p.SD_GetStatus SdCard.sd_lib0 = p.SDMMC_NOT_SUPPORTED
    · simp only [probe, habs, h1, State.emit, if_true,
        Option.some_bind, Option.some.injEq, exists_and_left, exists_eq_left',
        List.append_assoc, List.cons_append, List.nil_append, List.append_cancel_left_eq]
      refine ⟨by simp, by simp, by simp, ?_, by rw [hcount]; simp [slot_present, h1], ?_⟩
      · intro k a h
        simp only [List.mem_cons, Event.lun_init.injEq, reduceCtorEq, List.not_mem_nil,
          or_false, false_or] at h
        rcases h with ⟨_, rfl⟩ | ⟨_, rfl⟩ | ⟨_, rfl⟩ | ⟨_, rfl⟩ <;>
          simp [lun_reset, ramdisk_lun]
      · intro u hu
        simp only [List.mem_cons, Option.some.injEq, List.not_mem_nil, or_false] at hu
        rcases hu with rfl | rfl | rfl <;> simp [lun_reset, ramdisk_lun]
    · by_cases i1 : p.SD_Init SdCard.sd_lib0 = p.SDMMC_OK
      · simp only [probe, habs, h1, i1, State.emit, hroom', hm', if_true,
          if_false, Option.some_bind, Option.some.injEq, exists_and_left, exists_eq_left',
          List.append_assoc, List.cons_append, List.nil_append, List.append_cancel_left_eq,
          List.length_set, List.length, Nat.reducePow, Nat.reduceAdd, and_self, ne_eq,
          not_true_eq_false, not_false_eq_true]
        refine ⟨by simp, by simp, by simp, ?_, by rw [hcount]; simp [slot_present, h1, i1], ?_⟩
        · intro k a h
          simp only [List.mem_cons, Event.lun_init.injEq, reduceCtorEq, List.not_mem_nil,
            or_false, false_or] at h
          rcases h with ⟨_, rfl⟩ | ⟨_, rfl⟩ | ⟨_, rfl⟩ | ⟨_, rfl⟩ | ⟨_, rfl⟩ <;>
            simp [lun_reset, ramdisk_lun, sd_lun]
        · intro u hu
          rcases mem_set_three _ _ _ _ _ _ hu with h | h | h | h <;>
            simp only [Option.some.injEq] at h <;> subst h <;>
            simp [lun_reset, ramdisk_lun, sd_lun]
      · simp only [probe, habs, h1, i1, State.emit, if_true, if_false,
          Option.some_bind, Option.some.injEq, exists_and_left, exists_eq_left',
          List.append_assoc, List.cons_append, List.nil_append, List.append_cancel_left_eq,
          ne_eq, not_true_eq_false, not_false_eq_true]
        refine ⟨by simp, by simp, by simp, ?_, by rw [hcount]; simp [slot_present, h1, i1], ?_⟩
        · intro k a h
          simp only [List.mem_cons, Event.lun_init.injEq, reduceCtorEq, List.not_mem_nil,
            or_false, false_or] at h
          rcases h with ⟨_, rfl⟩ | ⟨_, rfl⟩ | ⟨_, rfl⟩ | ⟨_, rfl⟩ <;>
            simp [lun_reset, ramdisk_lun]
        · intro u hu
          simp only [List.mem_cons, Option.some.injEq, List.not_mem_nil, or_false] at hu
          rcases hu with rfl | rfl | rfl <;> simp [lun_reset, ramdisk_lun]

/-- Instance of C6 at the startup state: slot 0 reports `SDMMC_NOT_SUPPORTED`, slot 1
holds a card that initialises. -/
theorem C6_absent_slot_accounting_witness :
    ∃ s' new, _MemoriesInitialize (sample_platform 12 0 0 0) startup = some s' ∧
      s'.trace = startup.trace ++ new ∧
      Event.SD_GetStatus SdCard.sd_lib0 ∈ new ∧ Event.SD_Init SdCard.sd_lib0 ∉ new ∧
      (∀ k, Event.media_sdusb_initialize k SdCard.sd_lib0 ∉ new) ∧
      (∀ k a, Event.lun_init k a ∈ new → a.ioBuffer ≠ some Buffer.sd_buffer0) ∧
      s'.current_lun_num = (startup.current_lun_num + 1 +
        (sd_lib.filter (fun d => decide (d ≠ SdCard.sd_lib0 ∧
          slot_present (sample_platform 12 0 0 0) d))).length) % 2 ^ 8 ∧
      (∀ u, some u ∈ s'.luns → u.ioBuffer ≠ some Buffer.sd_buffer0) :=
  C6_absent_slot_accounting (sample_platform 12 0 0 0) startup 0 SdCard.sd_lib0
    Buffer.sd_buffer0 rfl rfl rfl rfl (by decide) rfl

/-- C7. Registry capacity bound: from the startup state, whatever the two slots report,
`_MemoriesInitialize` completes without a store outside `medias` or `luns`, every index
through which it initialised an entry of `medias` or `luns` is below `MAX_LUNS` = 3, both
arrays keep their `MAX_LUNS` entries, and the final count satisfies
1 <= `current_lun_num` <= `MAX_LUNS`. -/
theorem C7_registry_capacity_bound (p : Platform) :
    ∃ s, _MemoriesInitialize p startup = some s ∧
      (∀ e ∈ s.trace, ∀ k, e.index = some k → k < MAX_LUNS) ∧
      s.medias.length = MAX_LUNS ∧ s.luns.length = MAX_LUNS ∧
      1 ≤ s.current_lun_num ∧ s.current_lun_num ≤ MAX_LUNS ∧ MAX_LUNS = 3 := by
  rw [MemoriesInitialize_startup]
  by_cases h0 : p.SD_GetStatus SdCard.sd_lib0 = p.SDMMC_NOT_SUPPORTED <;>
  by_cases h1 : p.SD_GetStatus SdCard.sd_lib1 = p.SDMMC_NOT_SUPPORTED <;>
  by_cases i0 : p.SD_Init SdCard.sd_lib0 = p.SDMMC_OK <;>
  by_cases i1 : p.SD_Init SdCard.sd_lib1 = p.SDMMC_OK <;>
  simp [probe, State.emit, h0, h1, i0, i1, Event.index, MAX_LUNS, BOARD_NUM_SDMMC]

/-- C8. All-or-nothing units: from the startup state, whatever the two slots report,
after `_MemoriesInitialize` every entry of `luns[0..MAX_LUNS-1]` has been initialised
by `lun_init`; the entries with index below `current_lun_num` are fully initialised
(medium, buffer and buffer size all set) and the entries with index at or above
`current_lun_num` hold the all-zero reset. The reset unit is not fully initialised. -/
theorem C8_all_or_nothing_units (p : Platform) :
    ∃ s, _MemoriesInitialize p startup = some s ∧
      s.luns.length = MAX_LUNS ∧
      (∀ k, k < MAX_LUNS → ∃ u, s.luns[k]? = some (some u) ∧
        (k < s.current_lun_num → u.fully_initialised) ∧
        (s.current_lun_num ≤ k → u = lun_reset)) ∧
      ¬ lun_reset.fully_initialised := by
  rw [MemoriesInitialize_startup]
  have hk : ∀ k, k < MAX_LUNS → k = 0 ∨ k = 1 ∨ k = 2 := by
    intro k hk
    simp only [MAX_LUNS, BOARD_NUM_SDMMC] at hk
    omega
  by_cases h0 : p.SD_GetStatus SdCard.sd_lib0 = p.SDMMC_NOT_SUPPORTED <;>
  by_cases h1 : p.SD_GetStatus SdCard.sd_lib1 = p.SDMMC_NOT_SUPPORTED <;>
  by_cases i0 : p.SD_Init SdCard.sd_lib0 = p.SDMMC_OK <;>
  by_cases i1 : p.SD_Init SdCard.sd_lib1 = p.SDMMC_OK <;>
  simp only [probe, State.emit, h0, h1, i0, i1, if_true, if_false, Option.some_bind,
    ne_eq, not_true_eq_false, not_false_eq_true, List.length, Nat.reduceAdd, Nat.reduceLT,
    and_self, Nat.reducePow, Nat.reduceMod, List.set, Option.some.injEq, exists_eq_left'] <;>
  refine ⟨rfl, ?_, by decide⟩ <;>
  intro k hlt <;>
  rcases hk k hlt with rfl | rfl | rfl <;>
  simp [MSDLun.fully_initialised, ramdisk_lun, sd_lun, lun_reset, MSD_BUFFER_SIZE, BLOCK_SIZE]

/-- C9. Write-completion callback: `msd_callbacks_data` changes no variable other than
`msd_write_total`; for `flow_direction = 0` the new total is the old total plus
`data_length` modulo 2^32, for a non-zero `flow_direction` the total is unchanged; the
two fifo counts do not affect the result. -/
theorem C9_write_completion_callback (flow_direction data_length fifo_null_count
    fifo_full_count : Nat) (s : State) :
    msd_callbacks_data flow_direction data_length fifo_null_count fifo_full_count s =
        { s with msd_write_total :=
            if flow_direction = 0 then (s.msd_write_total + data_length) % 2 ^ 32
            else s.msd_write_total } ∧
      (flow_direction = 0 →
        (msd_callbacks_data flow_direction data_length fifo_null_count fifo_full_count
          s).msd_write_total = (s.msd_write_total + data_length) % 2 ^ 32) ∧
      (flow_direction ≠ 0 →
        msd_callbacks_data flow_direction data_length fifo_null_count fifo_full_count s
          = s) ∧
      ∀ n f : Nat, msd_callbacks_data flow_direction data_length n f s =
        msd_callbacks_data flow_direction data_length fifo_null_count fifo_full_count s := by
  refine ⟨msd_callbacks_data_eq _ _ _ _ s, ?_, ?_, ?_⟩
  · intro h
    simp [msd_callbacks_data, h]
  · intro h
    simp [msd_callbacks_data, h]
  · intro n f
    rfl

/-- C10. Fixed-medium geometry: `ramdisk_init` passes to `media_ramdisk_init` the block
count `RAMDISK_SIZE / BLOCK_SIZE` = 16384 and the block size `BLOCK_SIZE` = 512; their
product is `RAMDISK_SIZE` = 8,388,608, the length of `ramdisk_reserved`, so it does not
exceed the reserved region; the division is exact and the block size is 2^9. -/
theorem C10_fixed_medium_geometry (p : Platform) (s : State) (hm : 0 < s.medias.length)
    (hl : 0 < s.luns.length) :
    ∃ s', ramdisk_init p s = some s' ∧
      s'.trace = s.trace ++
        [Event.media_ramdisk_init DRV_RAMDISK (p.ramdisk_reserved / BLOCK_SIZE) 16384 512,
         Event.lun_init DRV_RAMDISK ramdisk_lun] ∧
      s'.medias[DRV_RAMDISK]? =
        some (Media.ramdisk (p.ramdisk_reserved / BLOCK_SIZE) 16384 512) ∧
      BLOCK_SIZE = 512 ∧ RAMDISK_SIZE / BLOCK_SIZE = 16384 ∧
      BLOCK_SIZE * (RAMDISK_SIZE / BLOCK_SIZE) = RAMDISK_SIZE ∧
      RAMDISK_SIZE = 8388608 ∧
      BLOCK_SIZE * (RAMDISK_SIZE / BLOCK_SIZE) ≤ ramdisk_reserved_length ∧
      RAMDISK_SIZE % BLOCK_SIZE = 0 ∧ BLOCK_SIZE = 2 ^ 9 := by
  rw [ramdisk_init_eq p s hm hl]
  refine ⟨_, rfl, ?_, ?_, by decide, by decide, by decide, by decide, by decide, by decide,
    by decide⟩
  · simp [DRV_RAMDISK, RAMDISK_SIZE, BLOCK_SIZE]
  · simp [DRV_RAMDISK, hm, ramdisk_media, RAMDISK_SIZE, BLOCK_SIZE]

/-- Instance of C10 at the startup state. -/
theorem C10_fixed_medium_geometry_witness :
    ∃ s', ramdisk_init (sample_platform 12 12 0 0) startup = some s' ∧
      s'.trace = startup.trace ++
        [Event.media_ramdisk_init DRV_RAMDISK
          ((sample_platform 12 12 0 0).ramdisk_reserved / BLOCK_SIZE) 16384 512,
         Event.lun_init DRV_RAMDISK ramdisk_lun] ∧
      s'.medias[DRV_RAMDISK]? =
        some (Media.ramdisk ((sample_platform 12 12 0 0).ramdisk_reserved / BLOCK_SIZE)
          16384 512) ∧
      BLOCK_SIZE = 512 ∧ RAMDISK_SIZE / BLOCK_SIZE = 16384 ∧
      BLOCK_SIZE * (RAMDISK_SIZE / BLOCK_SIZE) = RAMDISK_SIZE ∧
      RAMDISK_SIZE = 8388608 ∧
      BLOCK_SIZE * (RAMDISK_SIZE / BLOCK_SIZE) ≤ ramdisk_reserved_length ∧
      RAMDISK_SIZE % BLOCK_SIZE = 0 ∧ BLOCK_SIZE = 2 ^ 9 :=
  C10_fixed_medium_geometry (sample_platform 12 12 0 0) startup (by decide) (by decide)

/-! ## Lemmas on the service loop and the counters -/

theorem bytes_written_append (xs ys : List Transfer) :
    bytes_written (xs ++ ys) = bytes_written xs + bytes_written ys := by
  induction xs with
  | nil => simp [bytes_written]
  | cons x xs ih => simp [bytes_written, ih, Nat.add_assoc]

theorem transfers_foldl_total (ts : List Transfer) (s : State) :
    (ts.foldl
      (fun a t => msd_callbacks_data t.flow_direction t.data_length t.fifo_null_count
        t.fifo_full_count a) s).msd_write_total % 2 ^ 32 =
      (s.msd_write_total + bytes_written ts) % 2 ^ 32 ∧
    (s.msd_write_total < 2 ^ 32 →
      (ts.foldl
        (fun a t => msd_callbacks_data t.flow_direction t.data_length t.fifo_null_count
          t.fifo_full_count a) s).msd_write_total < 2 ^ 32) := by
  induction ts generalizing s with
  | nil => simp [bytes_written]
  | cons t ts ih =>
    have h := ih (msd_callbacks_data t.flow_direction t.data_length t.fifo_null_count
      t.fifo_full_count s)
    simp only [List.foldl_cons]
    rw [msd_callbacks_data_eq] at h ⊢
    refine ⟨?_, ?_⟩
    · rw [h.1]
      by_cases hd : t.flow_direction = 0
      · simp only [hd, if_true, bytes_written]
        omega
      · simp only [hd, if_false, bytes_written]
        omega
    · intro hs
      apply h.2
      by_cases hd : t.flow_direction = 0
      · simp only [hd, if_true]
        exact Nat.mod_lt _ (by decide)
      · simp only [hd, if_false]
        exact hs

theorem main_loop_body_idle (p : Platform) (e : Step) (s : State)
    (hrefresh : s.msd_refresh = 0) :
    main_loop_body p e s =
      if e.usbd_state ≥ p.USBD_STATE_CONFIGURED then
        msd_driver_state_machine e.transfers (s.emit Event.usbd_get_state)
      else s.emit Event.usbd_get_state := by
  by_cases hcfg : e.usbd_state ≥ p.USBD_STATE_CONFIGURED
  · have h4 : (msd_driver_state_machine e.transfers
        (s.emit Event.usbd_get_state)).msd_refresh = 0 :=
      (msd_driver_state_machine_frame e.transfers
        (s.emit Event.usbd_get_state)).2.2.2.1.trans hrefresh
    simp only [main_loop_body, hcfg, if_true, h4, ne_eq, not_true_eq_false, if_false]
  · simp only [main_loop_body, hcfg, if_false]

theorem main_loop_body_unconfigured (p : Platform) (e : Step) (s : State)
    (hlow : e.usbd_state < p.USBD_STATE_CONFIGURED) :
    main_loop_body p e s = s.emit Event.usbd_get_state := by
  have hcfg : ¬ e.usbd_state ≥ p.USBD_STATE_CONFIGURED := by omega
  simp [main_loop_body, hcfg]

theorem main_loop_idle (p : Platform) (steps : List Step) (s : State)
    (hrefresh : s.msd_refresh = 0) :
    (steps.foldl (fun a e => main_loop_body p e a) s).msd_refresh = 0 ∧
      (steps.foldl (fun a e => main_loop_body p e a) s).msd_write_total % 2 ^ 32 =
        (s.msd_write_total + bytes_written (serviced p steps)) % 2 ^ 32 ∧
      (s.msd_write_total < 2 ^ 32 →
        (steps.foldl (fun a e => main_loop_body p e a) s).msd_write_total < 2 ^ 32) ∧
      (Event.flush_disk_media ∉ s.trace →
        Event.flush_disk_media ∉ (steps.foldl (fun a e => main_loop_body p e a) s).trace) := by
  induction steps generalizing s with
  | nil => simp [serviced, bytes_written, hrefresh]
  | cons e es ih =>
    simp only [List.foldl_cons]
    have hbody := main_loop_body_idle p e s hrefresh
    have hf := msd_driver_state_machine_frame e.transfers (s.emit Event.usbd_get_state)
    have ht := transfers_foldl_total e.transfers
      ((s.emit Event.usbd_get_state).emit Event.msd_driver_state_machine)
    by_cases hcfg : e.usbd_state ≥ p.USBD_STATE_CONFIGURED
    · rw [if_pos hcfg] at hbody
      have hr : (main_loop_body p e s).msd_refresh = 0 := by
        rw [hbody, hf.2.2.2.1]; exact hrefresh
      obtain ⟨i1, i2, i3, i4⟩ := ih (main_loop_body p e s) hr
      have htot : (main_loop_body p e s).msd_write_total % 2 ^ 32 =
          (s.msd_write_total + bytes_written e.transfers) % 2 ^ 32 := by
        rw [hbody]; exact ht.1
      refine ⟨i1, ?_, ?_, ?_⟩
      · rw [i2]
        simp only [serviced, hcfg, if_true, bytes_written_append]
        omega
      · intro hs
        apply i3
        rw [hbody]
        exact ht.2 hs
      · intro hs
        apply i4
        rw [hbody, hf.2.2.2.2]
        simp [State.emit, hs]
    · rw [if_neg hcfg] at hbody
      have hr : (main_loop_body p e s).msd_refresh = 0 := by
        rw [hbody]; exact hrefresh
      obtain ⟨i1, i2, i3, i4⟩ := ih (main_loop_body p e s) hr
      refine ⟨i1, ?_, ?_, ?_⟩
      · rw [i2, hbody]
        simp [serviced, hcfg, State.emit]
      · intro hs
        apply i3
        rw [hbody]
        exact hs
      · intro hs
        apply i4
        rw [hbody]
        simp [State.emit, hs]

theorem main_startup_counters (p : Platform) :
    ∃ s, main_startup p startup = some s ∧ s.msd_refresh = 0 ∧ s.msd_write_total = 0 ∧
      Event.flush_disk_media ∉ s.trace := by
  unfold main_startup
  rw [MemoriesInitialize_startup]
  by_cases h0 : p.SD_GetStatus SdCard.sd_lib0 = p.SDMMC_NOT_SUPPORTED <;>
  by_cases h1 : p.SD_GetStatus SdCard.sd_lib1 = p.SDMMC_NOT_SUPPORTED <;>
  by_cases i0 : p.SD_Init SdCard.sd_lib0 = p.SDMMC_OK <;>
  by_cases i1 : p.SD_Init SdCard.sd_lib1 = p.SDMMC_OK <;>
  simp [probe, State.emit, h0, h1, i0, i1]

theorem probe_counters (p : Platform) (c : SdCard) (b : Buffer) (s s' : State)
    (h : probe p c b s = some s') :
    s'.msd_refresh = s.msd_refresh ∧ s'.msd_write_total = s.msd_write_total := by
  unfold probe at h
  split at h
  · simp only [Option.some.injEq] at h; subst h; exact ⟨rfl, rfl⟩
  · split at h
    · simp only [Option.some.injEq] at h; subst h; exact ⟨rfl, rfl⟩
    · split at h
      · simp only [Option.some.injEq] at h; subst h; exact ⟨rfl, rfl⟩
      · simp at h

theorem MemoriesInitialize_counters (p : Platform) (s s' : State)
    (hm : s.medias.length = MAX_LUNS) (hl : s.luns.length = MAX_LUNS)
    (h : _MemoriesInitialize p s = some s') :
    s'.msd_refresh = s.msd_refresh ∧ s'.msd_write_total = s.msd_write_total := by
  rw [MemoriesInitialize_eq p s hm hl] at h
  cases h0 : probe p SdCard.sd_lib0 Buffer.sd_buffer0 _ with
  | none => rw [h0] at h; simp at h
  | some s1 =>
    rw [h0] at h
    simp only [Option.some_bind] at h
    have a := probe_counters p _ _ _ _ h0
    have b := probe_counters p _ _ _ _ h
    exact ⟨b.1.trans a.1, b.2.trans a.2⟩

@[simp]
theorem lun_reset_ioBuffer : lun_reset.ioBuffer = none := rfl

@[simp]
theorem ramdisk_lun_ioBufferSize : ramdisk_lun.ioBufferSize = MSD_BUFFER_SIZE := rfl

@[simp]
theorem sd_lun_ioBufferSize (n : Nat) (b : Buffer) :
    (sd_lun n b).ioBufferSize = MSD_BUFFER_SIZE := rfl

/-! ## The claims on buffers, the trigger flag and loop gating -/

/-- C11. Buffer sizing: from the startup state, whatever the two slots report, every
`lun_init` call of the enumeration that binds a buffer (the one of `ramdisk_init` and
those of `sddisk_init`), and every unit of `luns` that holds a buffer afterwards, is given
the capacity `MSD_BUFFER_SIZE` = 65,536 bytes, which is the declared length of the buffer
array it is bound to; that capacity is non-zero and is 128 times the 512-byte block
size. The RAM-disk unit is always among the bound units. -/
theorem C11_buffer_sizing (p : Platform) :
    ∃ s, _MemoriesInitialize p startup = some s ∧
      (∀ k a b, Event.lun_init k a ∈ s.trace → a.ioBuffer = some b →
        a.ioBufferSize = MSD_BUFFER_SIZE ∧ a.ioBufferSize = b.length) ∧
      (∀ u b, some u ∈ s.luns → u.ioBuffer = some b →
        u.ioBufferSize = MSD_BUFFER_SIZE ∧ u.ioBufferSize = b.length) ∧
      (∃ u, some u ∈ s.luns ∧ u.ioBuffer = some Buffer.ram_buffer) ∧
      (∀ b : Buffer, b.length = MSD_BUFFER_SIZE) ∧
      MSD_BUFFER_SIZE = 65536 ∧ MSD_BUFFER_SIZE ≠ 0 ∧ BLOCK_SIZE = 512 ∧
      MSD_BUFFER_SIZE = 128 * BLOCK_SIZE ∧ MSD_BUFFER_SIZE % BLOCK_SIZE = 0 := by
  have hlen : ∀ b : Buffer, b.length = MSD_BUFFER_SIZE := by
    intro b; cases b <;> rfl
  rw [MemoriesInitialize_startup]
  by_cases h0 : p.SD_GetStatus SdCard.sd_lib0 = p.SDMMC_NOT_SUPPORTED <;>
  by_cases h1 : p.SD_GetStatus SdCard.sd_lib1 = p.SDMMC_NOT_SUPPORTED <;>
  by_cases i0 : p.SD_Init SdCard.sd_lib0 = p.SDMMC_OK <;>
  by_cases i1 : p.SD_Init SdCard.sd_lib1 = p.SDMMC_OK <;>
  simp only [probe, State.emit, h0, h1, i0, i1, if_true, if_false, Option.some_bind,
    ne_eq, not_true_eq_false, not_false_eq_true, List.length, Nat.reduceAdd, Nat.reduceLT,
    and_self, Nat.reducePow, Nat.reduceMod, List.set, Option.some.injEq, exists_eq_left',
    List.append_assoc, List.cons_append, List.nil_append] <;>
  refine ⟨?_, ?_, ⟨ramdisk_lun, by simp, rfl⟩, hlen, by decide, by decide, by decide,
    by decide, by decide⟩ <;>
  simp only [hlen, and_self, List.mem_cons, Event.lun_init.injEq, reduceCtorEq,
    List.not_mem_nil, or_false, false_or, Option.some.injEq] <;>
  intros <;>
  aesop

/-- C12. The trigger flag is never set: `msd_refresh` is 0 at startup; the callback
and the enumeration leave it as it is and the loop body either leaves it or stores 0. So
after the startup part of `main` and any number of iterations of the service loop,
`msd_refresh` is 0, the block marked "Flush Disk Media" has never been entered, every
further iteration reduces to the state query followed, when configured, by the driver
step (the reset branch is not taken), and `msd_write_total` is the number of bytes
written in the serviced transfers modulo 2^32. -/
theorem C12_trigger_never_set (p : Platform) (steps : List Step) :
    startup.msd_refresh = 0 ∧
      (∀ d n a b s, (msd_callbacks_data d n a b s).msd_refresh = s.msd_refresh) ∧
      (∀ s s', s.medias.length = MAX_LUNS → s.luns.length = MAX_LUNS →
        _MemoriesInitialize p s = some s' → s'.msd_refresh = s.msd_refresh) ∧
      (∀ e s, (main_loop_body p e s).msd_refresh = 0 ∨
        (main_loop_body p e s).msd_refresh = s.msd_refresh) ∧
      ∃ s, main p steps = some s ∧ s.msd_refresh = 0 ∧
        Event.flush_disk_media ∉ s.trace ∧
        s.msd_write_total = bytes_written (serviced p steps) % 2 ^ 32 ∧
        ∀ e, main_loop_body p e s =
          if e.usbd_state ≥ p.USBD_STATE_CONFIGURED then
            msd_driver_state_machine e.transfers (s.emit Event.usbd_get_state)
          else s.emit Event.usbd_get_state := by
  refine ⟨rfl, ?_, ?_, ?_, ?_⟩
  · intro d n a b s
    rw [msd_callbacks_data_eq]
  · intro s s' hm hl h
    exact (MemoriesInitialize_counters p s s' hm hl h).1
  · intro e s
    by_cases hr : s.msd_refresh = 0
    · right
      rw [main_loop_body_idle p e s hr]
      split
      · exact (msd_driver_state_machine_frame e.transfers
          (s.emit Event.usbd_get_state)).2.2.2.1
      · rfl
    · by_cases hcfg : e.usbd_state ≥ p.USBD_STATE_CONFIGURED
      · left
        rw [main_loop_body_triggered p e s hcfg hr]
      · right
        rw [main_loop_body_unconfigured p e s (by omega)]
        rfl
  · obtain ⟨s0, hs0, hr0, ht0, hf0⟩ := main_startup_counters p
    obtain ⟨l1, l2, l3, l4⟩ := main_loop_idle p steps s0 hr0
    refine ⟨steps.foldl (fun a e => main_loop_body p e a) s0, ?_, l1, l4 hf0, ?_, ?_⟩
    · simp [main, hs0]
    · have hlt := l3 (by rw [ht0]; decide)
      rw [ht0, Nat.zero_add] at l2
      rw [← l2]
      exact (Nat.mod_eq_of_lt hlt).symm
    · intro e
      exact main_loop_body_idle p e _ l1

/-- C13. Loop gating by connection state: in an iteration where `usbd_get_state()` is
below `USBD_STATE_CONFIGURED` the only call made is the state query,
`msd_driver_state_machine` is not invoked, and `msd_refresh` and `msd_write_total` (and
everything else) are unchanged, whether or not `msd_refresh` is set. An iteration
changes `msd_refresh` only when the transport is configured and the flag was set, and
then the driver step has run before the reset: its call precedes everything else the
iteration does after the state query, and the total is 0 afterwards even when that step
reported writes. -/
theorem C13_loop_gating (p : Platform) (e : Step) (s : State) :
    (e.usbd_state < p.USBD_STATE_CONFIGURED →
      main_loop_body p e s = s.emit Event.usbd_get_state ∧
      (main_loop_body p e s).trace = s.trace ++ [Event.usbd_get_state] ∧
      (main_loop_body p e s).msd_refresh = s.msd_refresh ∧
      (main_loop_body p e s).msd_write_total = s.msd_write_total) ∧
    ((main_loop_body p e s).msd_refresh ≠ s.msd_refresh →
      e.usbd_state ≥ p.USBD_STATE_CONFIGURED ∧ s.msd_refresh ≠ 0 ∧
      (main_loop_body p e s).msd_refresh = 0 ∧
      (main_loop_body p e s).msd_write_total = 0 ∧
      (main_loop_body p e s).trace =
        s.trace ++ [Event.usbd_get_state, Event.msd_driver_state_machine] ++
          (if total_at_trigger e s < 50 * 1000 then [Event.flush_disk_media] else [])) := by
  refine ⟨?_, ?_⟩
  · intro hlow
    rw [main_loop_body_unconfigured p e s hlow]
    exact ⟨rfl, rfl, rfl, rfl⟩
  · intro hne
    by_cases hr : s.msd_refresh = 0
    · exfalso
      apply hne
      rw [main_loop_body_idle p e s hr]
      split
      · exact (msd_driver_state_machine_frame e.transfers
          (s.emit Event.usbd_get_state)).2.2.2.1
      · rfl
    · by_cases hcfg : e.usbd_state ≥ p.USBD_STATE_CONFIGURED
      · rw [main_loop_body_triggered p e s hcfg hr]
        exact ⟨hcfg, hr, rfl, rfl, rfl⟩
      · exfalso
        apply hne
        rw [main_loop_body_unconfigured p e s (by omega)]
        rfl

/-- Instance of C13: with `msd_refresh` set and 70,000 bytes accumulated, an
unconfigured iteration changes nothing but the trace, and a configured iteration that
reports a further write consumes the trigger after the driver step. -/
theorem C13_loop_gating_witness :
    (main_loop_body (sample_platform 12 12 0 0)
        { usbd_state := 4, transfers := [⟨0, 512, 0, 0⟩] }
        { startup with msd_write_total := 70000, msd_refresh := 1 } =
      { startup with msd_write_total := 70000, msd_refresh := 1,
                     trace := [Event.usbd_get_state] }) ∧
    ((main_loop_body (sample_platform 12 12 0 0)
        { usbd_state := 5, transfers := [⟨0, 512, 0, 0⟩] }
        { startup with msd_write_total := 70000, msd_refresh := 1 }).msd_write_total = 0 ∧
     (main_loop_body (sample_platform 12 12 0 0)
        { usbd_state := 5, transfers := [⟨0, 512, 0, 0⟩] }
        { startup with msd_write_total := 70000, msd_refresh := 1 }).trace =
      [Event.usbd_get_state, Event.msd_driver_state_machine]) :=
  ⟨((C13_loop_gating (sample_platform 12 12 0 0)
        { usbd_state := 4, transfers := [⟨0, 512, 0, 0⟩] }
        { startup with msd_write_total := 70000, msd_refresh := 1 }).1 (by decide)).1,
   have h := (C13_loop_gating (sample_platform 12 12 0 0)
        { usbd_state := 5, transfers := [⟨0, 512, 0, 0⟩] }
        { startup with msd_write_total := 70000, msd_refresh := 1 }).2 (by decide)
   ⟨h.2.2.2.1, h.2.2.2.2.trans (by decide)⟩⟩

end UsbMassStorage
